import Mathlib

/-!
Verification model of the moiz-project front-end (Test Paper Generater).

The definitions below are a shallow embedding of the client logic in
`src/client/pages/Index.tsx` (first page variant, lines 1-928): the file
validation `handleFile`, the settings loading/merge in the startup effect,
and the endpoint delivery orchestration `runSubmit` with its inner
`sendTo` helper and proxy fallback loop.  The network is abstracted as a
function from URL and timeout to an attempt result; everything else is
translated directly from the TypeScript source.
-/

/-! ## JSON values

JavaScript values produced by `JSON.parse`: strings, numbers (modelled as
integers, the only numbers occurring here), booleans, null, objects and
arrays.  Objects and arrays are given their own list-shaped types so that
all recursion below is structural and computes by kernel reduction. -/

mutual

inductive JsonVal where
  | str (s : String)
  | num (n : Int)
  | bool (b : Bool)
  | null
  | obj (fields : JsonFields)
  | arr (elems : JsonElems)

inductive JsonFields where
  | nil
  | cons (key : String) (val : JsonVal) (rest : JsonFields)

inductive JsonElems where
  | nil
  | cons (val : JsonVal) (rest : JsonElems)

end

/-- Appending object member lists (used to assemble serialized records). -/
def JsonFields.append : JsonFields → JsonFields → JsonFields
  | .nil, gs => gs
  | .cons k v fs, gs => .cons k v (JsonFields.append fs gs)

/-- Last-binding-wins association lookup: `JSON.parse` keeps the last
occurrence of a duplicated key, and property access reads that value. -/
def lookupLast : JsonFields → String → Option JsonVal
  | .nil, _ => none
  | .cons k v rest, key =>
    match lookupLast rest key with
    | some w => some w
    | none => if k = key then some v else none

/-- Property access `j?.key`: defined on objects, `none` (undefined) on
every other JSON value. -/
def jsonGet : JsonVal → String → Option JsonVal
  | .obj fields, key => lookupLast fields key
  | _, _ => none

/-- The nullish-coalescing step of `a ?? b`: a present `null` behaves like
an absent value. -/
def jsCoalesce : Option JsonVal → Option JsonVal
  | some .null => none
  | v => v

/-- Character-level escaping used by `JSON.stringify` for string values. -/
def quoteChars : List Char → List Char
  | [] => []
  | c :: cs =>
    (if c = '\\' then ['\\', '\\']
     else if c = '"' then ['\\', '"']
     else if c = '\n' then ['\\', 'n']
     else if c = '\t' then ['\\', 't']
     else if c = '\r' then ['\\', 'r']
     else [c]) ++ quoteChars cs

/-- String escaping used by `JSON.stringify` for string values. -/
def jsonQuote (s : String) : String :=
  ⟨'"' :: (quoteChars s.data ++ ['"'])⟩

mutual

/-- Model of `JSON.stringify(value, null, 2)`: two-space indented pretty
printing; `ind` is the indentation of the enclosing value. -/
def stringifyJson (ind : String) : JsonVal → String
  | .str s => jsonQuote s
  | .num n => toString n
  | .bool b => cond b "true" "false"
  | .null => "null"
  | .obj .nil => "\x7b\x7d"
  | .obj (.cons k v fs) =>
    "\x7b\n" ++ stringifyFields (ind ++ "  ") (.cons k v fs) ++ "\n" ++ ind ++ "\x7d"
  | .arr .nil => "[]"
  | .arr (.cons x xs) =>
    "[\n" ++ stringifyElems (ind ++ "  ") (.cons x xs) ++ "\n" ++ ind ++ "]"

/-- Object members of `JSON.stringify(value, null, 2)`, comma-and-newline
separated, each on its own indented line. -/
def stringifyFields (ind : String) : JsonFields → String
  | .nil => ""
  | .cons k v .nil => ind ++ jsonQuote k ++ ": " ++ stringifyJson ind v
  | .cons k v (.cons k2 v2 fs) =>
    ind ++ jsonQuote k ++ ": " ++ stringifyJson ind v ++ ",\n" ++
      stringifyFields ind (.cons k2 v2 fs)

/-- Array elements of `JSON.stringify(value, null, 2)`. -/
def stringifyElems (ind : String) : JsonElems → String
  | .nil => ""
  | .cons x .nil => ind ++ stringifyJson ind x
  | .cons x (.cons y xs) =>
    ind ++ stringifyJson ind x ++ ",\n" ++ stringifyElems ind (.cons y xs)

end

mutual

/-- JavaScript `String(v)` coercion on JSON values: strings unchanged,
numbers and booleans printed, `null` prints as "null", plain objects as
"[object Object]", arrays as their comma-joined elements. -/
def jsToString : JsonVal → String
  | .str s => s
  | .num n => toString n
  | .bool b => cond b "true" "false"
  | .null => "null"
  | .obj _ => "[object Object]"
  | .arr xs => jsElemsString xs

/-- Comma join of `Array.prototype.toString`: `null` elements render as
the empty string, every other element via `String(v)`. -/
def jsElemsString : JsonElems → String
  | .nil => ""
  | .cons .null .nil => ""
  | .cons x .nil => jsToString x
  | .cons .null (.cons y xs) => "," ++ jsElemsString (.cons y xs)
  | .cons x (.cons y xs) => jsToString x ++ "," ++ jsElemsString (.cons y xs)

end

/-! ## String helpers

Character-list implementations of the JavaScript string operations used by
the page, so that every definition evaluates by kernel reduction. -/

/-- Whether `p` is a leading run of `l`. -/
def listHasLead : List Char → List Char → Bool
  | _, [] => true
  | [], _ :: _ => false
  | c :: cs, d :: ds => c == d && listHasLead cs ds

/-- JavaScript `String.prototype.includes`: substring containment. -/
def listIncludes : List Char → List Char → Bool
  | [], p => p.isEmpty
  | c :: cs, p => listHasLead (c :: cs) p || listIncludes cs p

/-- `s.includes(pat)` on strings. -/
def strIncludes (s pat : String) : Bool :=
  listIncludes s.data pat.data

/-- Whitespace recognised by JavaScript `trim` (the characters relevant
here). -/
def isSpaceChar (c : Char) : Bool :=
  c == ' ' || c == '\t' || c == '\n' || c == '\r'

/-- JavaScript `String.prototype.trim`. -/
def jsTrim (s : String) : String :=
  ⟨((s.data.dropWhile isSpaceChar).reverse.dropWhile isSpaceChar).reverse⟩

/-- JavaScript `name.toLowerCase().endsWith(".pdf")`, the extension check
of `handleFile`. -/
def lowerEndsWithPdf (name : String) : Bool :=
  listHasLead (name.data.map Char.toLower).reverse ".pdf".data.reverse

example : strIncludes "application/json; charset=utf-8" "application/json" = true := rfl
example : strIncludes "text/html" "application/json" = false := rfl
example : jsTrim "  hi  " = "hi" := rfl
example : lowerEndsWithPdf "Notes.PDF" = true := rfl
example : lowerEndsWithPdf "notes.txt" = false := rfl
example : stringifyJson "" (.obj (.cons "a" (.num 1) .nil)) = "\x7b\n  \"a\": 1\n\x7d" := rfl
example : jsToString (.arr (.cons (.num 1) (.cons .null (.cons (.str "x") .nil)))) = "1,,x" := rfl
example : lookupLast (.cons "a" (.num 1) (.cons "a" (.num 2) .nil)) "a" = some (.num 2) := rfl

/-! ## Settings

`AppSettings`, `DEFAULT_SETTINGS` and the startup loading effect of
`Index.tsx` (lines 20-33 and 348-358): the persisted JSON is parsed as a
partial record and spread over the hardcoded defaults. -/

structure AppSettings where
  initialTimeoutMs : Int
  retryTimeoutMs : Int
  autoRetry : Bool
  defaultQuery : String
deriving DecidableEq

/-- Hardcoded defaults (`DEFAULT_SETTINGS` in the source). -/
def DEFAULT_SETTINGS : AppSettings :=
  { initialTimeoutMs := 25000
    retryTimeoutMs := 55000
    autoRetry := true
    defaultQuery := "" }

/-- A persisted `Partial<AppSettings>` record: each field either present
or absent. -/
structure PartialAppSettings where
  initialTimeoutMs : Option Int
  retryTimeoutMs : Option Int
  autoRetry : Option Bool
  defaultQuery : Option String
deriving DecidableEq

/-- The object spread `{ ...DEFAULT_SETTINGS, ...parsed }`: a field of the
parsed record overrides the default exactly when it is present. -/
def mergeSettings (d : AppSettings) (p : PartialAppSettings) : AppSettings :=
  { initialTimeoutMs := p.initialTimeoutMs.getD d.initialTimeoutMs
    retryTimeoutMs := p.retryTimeoutMs.getD d.retryTimeoutMs
    autoRetry := p.autoRetry.getD d.autoRetry
    defaultQuery := p.defaultQuery.getD d.defaultQuery }

/-- Startup loading: when nothing valid is stored under the settings key
(no raw value, or `JSON.parse` threw), the state keeps the defaults;
otherwise the parsed partial record is merged over the defaults. -/
def loadSettings : Option PartialAppSettings → AppSettings
  | none => DEFAULT_SETTINGS
  | some p => mergeSettings DEFAULT_SETTINGS p

/-- The typed read `JSON.parse(raw) as Partial<AppSettings>` on a stored
JSON object: each declared field is taken when present with the declared
type. -/
def decodeSettings (j : JsonVal) : PartialAppSettings :=
  { initialTimeoutMs :=
      match jsonGet j "initialTimeoutMs" with
      | some (.num v) => some v
      | _ => none
    retryTimeoutMs :=
      match jsonGet j "retryTimeoutMs" with
      | some (.num v) => some v
      | _ => none
    autoRetry :=
      match jsonGet j "autoRetry" with
      | some (.bool b) => some b
      | _ => none
    defaultQuery :=
      match jsonGet j "defaultQuery" with
      | some (.str s) => some s
      | _ => none }

/-- Modelled from the spec: the settings page that saves the record is not
among the sources (only the loading side is, in `Index.tsx`); per spec
section 3 the record is "persisted as serialized JSON under a fixed key",
so saving a partial record stores a JSON object holding exactly the
explicitly saved fields. -/
def encodeSettings (p : PartialAppSettings) : JsonVal :=
  .obj
    (JsonFields.append
      (match p.initialTimeoutMs with
       | some v => .cons "initialTimeoutMs" (.num v) .nil
       | none => .nil)
      (JsonFields.append
        (match p.retryTimeoutMs with
         | some v => .cons "retryTimeoutMs" (.num v) .nil
         | none => .nil)
        (JsonFields.append
          (match p.autoRetry with
           | some b => .cons "autoRetry" (.bool b) .nil
           | none => .nil)
          (match p.defaultQuery with
           | some s => .cons "defaultQuery" (.str s) .nil
           | none => .nil))))

/-! ## HTTP responses and the network abstraction -/

/-- A response as observed by `runSubmit`: `status` and the content-type
header, the body text delivered by `res.text()`, and the outcome of
`res.json()` (`none` when JSON parsing of the body throws). -/
structure HttpResponse where
  status : Nat
  contentType : String
  body : String
  parsed : Option JsonVal

/-- What a single `sendTo(url, timeoutMs)` call produces: `noResponse`
models the `null` return (its catch block swallows timeouts, network and
CORS errors), `response` a delivered `Response` object. -/
inductive AttemptResult where
  | noResponse
  | response (r : HttpResponse)

/-- The network environment: what each POST to a given URL with a given
per-attempt timeout yields. -/
abbrev Net := String → Int → AttemptResult

/-- `Response.ok`: status in the 2xx range. -/
def isOk (status : Nat) : Bool :=
  decide (200 ≤ status) && decide (status < 300)

/-! ## Delivery orchestration (`runSubmit`, Index.tsx lines 415-606) -/

/-- The hardcoded fallback candidates tried after the direct endpoint
(lines 537-542). -/
def proxies : List String :=
  ["/.netlify/functions/proxy", "/api/generate-questions", "/api/proxy", "/proxy"]

/-- The ordered candidate endpoint list of one submission: the direct
`API_URL` when configured (non-empty), then the proxy paths. -/
def candidateList (apiUrl : String) : List String :=
  (if apiUrl = "" then [] else [apiUrl]) ++ proxies

/-- The proxy fallback loop (lines 543-553): try each proxy in order,
keep the first response whose status is 2xx; `noResponse` and non-2xx
responses advance to the next proxy. -/
def deliverLoop (net : Net) (t : Int) : List String → Option HttpResponse
  | [] => none
  | u :: rest =>
    match net u t with
    | .noResponse => deliverLoop net t rest
    | .response r => if isOk r.status then some r else deliverLoop net t rest

/-- The URLs the proxy loop actually attempts (it stops after the first
accepted response). -/
def loopAttempts (net : Net) (t : Int) : List String → List String
  | [] => []
  | u :: rest =>
    match net u t with
    | .noResponse => u :: loopAttempts net t rest
    | .response r => if isOk r.status then [u] else u :: loopAttempts net t rest

/-- The final `res` of the try block (lines 528-554): the direct endpoint
is attempted first when configured, with `initialTimeoutMs`; its response
is kept even when not 2xx.  Only when it produced no response at all (or
no direct endpoint is configured) does the proxy loop run, with
`retryTimeoutMs`. -/
def deliveredResponse (apiUrl : String) (s : AppSettings) (net : Net) :
    Option HttpResponse :=
  let direct : Option HttpResponse :=
    if apiUrl = "" then none
    else
      match net apiUrl s.initialTimeoutMs with
      | .noResponse => none
      | .response r => some r
  match direct with
  | some r => some r
  | none => deliverLoop net s.retryTimeoutMs proxies

/-- All URLs one submission POSTs to, in order. -/
def deliveryAttempts (apiUrl : String) (s : AppSettings) (net : Net) :
    List String :=
  if apiUrl = "" then loopAttempts net s.retryTimeoutMs proxies
  else
    match net apiUrl s.initialTimeoutMs with
    | .noResponse => apiUrl :: loopAttempts net s.retryTimeoutMs proxies
    | .response _ => [apiUrl]

/-- The aggregate error thrown when no candidate produced a response
(lines 556-561). -/
def aggregateErrorMsg : String :=
  "Network or CORS error. If deployed on Netlify set VITE_PREDICT_ENDPOINT=\x27/.netlify/functions/proxy\x27 and PREDICT_ENDPOINT=\x27https://api-va5v.onrender.com\x27, or on Vercel set VITE_PREDICT_ENDPOINT=\x27/api/proxy\x27 and PREDICT_ENDPOINT=\x27https://api-va5v.onrender.com\x27. Alternatively, enable CORS on the API."

/-- What one submission produces inside the try block: a displayed result
text, or a thrown error message caught by the outer handler. -/
inductive Outcome where
  | success (text : String)
  | failure (msg : String)
deriving DecidableEq

/-- The response-shape normalization of lines 573-583: a JSON string body
is displayed as-is; otherwise the keys `questions`, `result`, `message`
are tried in order (skipping absent and null values, as `??` does) and the
chosen value passed through `String(...)`; when none matches, the whole
value is pretty-printed with `JSON.stringify(json, null, 2)`. -/
def extractText (j : JsonVal) : String :=
  match j with
  | .str s => s
  | _ =>
    match jsCoalesce (jsonGet j "questions") with
    | some v => jsToString v
    | none =>
      match jsCoalesce (jsonGet j "result") with
      | some v => jsToString v
      | none =>
        match jsCoalesce (jsonGet j "message") with
        | some v => jsToString v
        | none => stringifyJson "" j

/-- Handling of the final response (lines 563-595): a non-2xx response
throws its body text (or `HTTP <status>` when the body is empty); a 2xx
response with a JSON content-type is parsed and normalized (falling back
to the raw text when parsing throws); any other 2xx response is displayed
as text. -/
def handleResponse (r : HttpResponse) : Outcome :=
  if isOk r.status = false then
    .failure (if r.body = "" then "HTTP " ++ toString r.status else r.body)
  else if strIncludes r.contentType "application/json" then
    match r.parsed with
    | some j => .success (extractText j)
    | none => .success r.body
  else
    .success r.body

/-- The whole try block after validation: deliver, then either the
aggregate network/CORS error (when no candidate responded) or the handling
of the delivered response. -/
def runDelivery (apiUrl : String) (s : AppSettings) (net : Net) : Outcome :=
  match deliveredResponse apiUrl s net with
  | none => .failure aggregateErrorMsg
  | some r => handleResponse r

/-! ## File validation and submission state -/

/-- The observable fields of an uploaded `File`. -/
structure FileInfo where
  name : String
  type : String
  size : Nat
deriving DecidableEq

/-- `MAX_SIZE` (15MB). -/
def MAX_SIZE : Nat := 15 * 1024 * 1024

/-- `handleFile` (lines 366-390): returns the new `(file, error)` state.
A file is rejected as non-PDF only when its MIME type is not
`application/pdf` AND its lowercased name does not end in `.pdf`; an
accepted-type file larger than `MAX_SIZE` is rejected as too large;
otherwise the file is stored and the error cleared.  (Each rejection also
shows a toast with the matching title.) -/
def handleFile (f : FileInfo) : Option FileInfo × Option String :=
  if (f.type != "application/pdf") && !lowerEndsWithPdf f.name then
    (none, some "Please upload a valid PDF file.")
  else if f.size > MAX_SIZE then
    (none, some "PDF exceeds 15MB limit.")
  else
    (some f, none)

/-- The transient submission state owned by the page: displayed result and
inline error message. -/
structure SubmitState where
  result : Option String
  error : Option String
deriving DecidableEq

/-- `runSubmit` (lines 415-606), as a state transition: the previous state
is overwritten by `setError(null); setResult(null)` before anything else;
validation rejects a missing file or an empty trimmed query without any
network call; otherwise the delivery orchestration runs and its outcome is
stored (the catch block maps a literal "timeout" message and an empty
message to friendlier texts).  The second component lists the toasts shown
(title, description). -/
def runSubmit (apiUrl : String) (s : AppSettings) (net : Net)
    (_prev : SubmitState) (file : Option FileInfo) (query : String) :
    SubmitState × List (String × String) :=
  let cleared : SubmitState := { result := none, error := none }
  match file with
  | none =>
    ({ cleared with error := some "Attach a PDF file first." },
     [("Missing PDF", "Attach a PDF to continue.")])
  | some _ =>
    if jsTrim query = "" then
      ({ cleared with error := some "Enter a query." },
       [("Missing query", "Write what to generate.")])
    else
      match runDelivery apiUrl s net with
      | .success txt => ({ cleared with result := some txt }, [])
      | .failure m =>
        let msg :=
          if m = "timeout" then "Request timed out. Please try again."
          else if m = "" then "Request failed"
          else m
        ({ cleared with error := some msg }, [("Request failed", msg)])

/-- The URLs a call to `runSubmit` POSTs to: none when validation rejects
the submission, otherwise exactly the delivery attempts. -/
def submitAttempts (apiUrl : String) (s : AppSettings) (net : Net)
    (file : Option FileInfo) (query : String) : List String :=
  match file with
  | none => []
  | some _ =>
    if jsTrim query = "" then [] else deliveryAttempts apiUrl s net

example :
    runDelivery "" DEFAULT_SETTINGS
      (fun _ _ => .response ⟨200, "application/json", "",
        some (.obj (.cons "questions" (.str "X") .nil))⟩) = .success "X" := rfl
example :
    runDelivery "" DEFAULT_SETTINGS (fun _ _ => .noResponse) =
      .failure aggregateErrorMsg := rfl

/-! ## Loop lemmas -/

/-- An attempt that does not produce an accepted response: either no
response at all (timeout, network or CORS error) or a response outside the
2xx range. -/
def attemptFails (a : AttemptResult) : Prop :=
  a = .noResponse ∨ ∃ r, a = .response r ∧ isOk r.status = false

theorem deliverLoop_append (net : Net) (t : Int) (l₁ rest : List String)
    (h : ∀ v ∈ l₁, attemptFails (net v t)) :
    deliverLoop net t (l₁ ++ rest) = deliverLoop net t rest := by
  induction l₁ with
  | nil => rfl
  | cons a l ih =>
    have ha := h a (List.mem_cons_self a l)
    have hrest := ih (fun v hv => h v (List.mem_cons_of_mem a hv))
    rcases ha with ha | ⟨r, hr, hok⟩
    · simpa [deliverLoop, ha] using hrest
    · simpa [deliverLoop, hr, hok] using hrest

theorem deliverLoop_none (net : Net) (t : Int) (l : List String)
    (h : ∀ v ∈ l, attemptFails (net v t)) :
    deliverLoop net t l = none := by
  have := deliverLoop_append net t l [] h
  simpa using this

theorem loopAttempts_all (net : Net) (t : Int) (l : List String)
    (h : ∀ v ∈ l, attemptFails (net v t)) :
    loopAttempts net t l = l := by
  induction l with
  | nil => rfl
  | cons a l ih =>
    have ha := h a (List.mem_cons_self a l)
    have hrest := ih (fun v hv => h v (List.mem_cons_of_mem a hv))
    rcases ha with ha | ⟨r, hr, hok⟩
    · simp [loopAttempts, ha, hrest]
    · simp [loopAttempts, hr, hok, hrest]

theorem loopAttempts_isLead (net : Net) (t : Int) (l : List String) :
    ∃ rest, loopAttempts net t l ++ rest = l := by
  induction l with
  | nil => exact ⟨[], rfl⟩
  | cons a l ih =>
    obtain ⟨rest, hrest⟩ := ih
    cases hnet : net a t with
    | noResponse => exact ⟨rest, by simp [loopAttempts, hnet, hrest]⟩
    | response r =>
      by_cases hok : isOk r.status = true
      · exact ⟨l, by simp [loopAttempts, hnet, hok]⟩
      · refine ⟨rest, ?_⟩
        simp only [Bool.not_eq_true] at hok
        simp [loopAttempts, hnet, hok, hrest]

theorem deliverLoop_found (net : Net) (t : Int) (l₁ l₂ : List String)
    (u : String) (r : HttpResponse)
    (hfail : ∀ v ∈ l₁, attemptFails (net v t))
    (hu : net u t = .response r) (hok : isOk r.status = true) :
    deliverLoop net t (l₁ ++ u :: l₂) = some r := by
  rw [deliverLoop_append net t l₁ _ hfail]
  simp [deliverLoop, hu, hok]

/-- C1: if, in the ordered candidate list of a submission, every candidate
before some position fails with a timeout or network error (no response)
and the candidate at that position responds with status 200, content-type
application/json and body `{questions: "X"}`, then the result text
displayed to the user equals `"X"`. -/
theorem c1_fallback_displays_questions
    (apiUrl : String) (s : AppSettings) (net : Net) (prev : SubmitState)
    (f : FileInfo) (q : String) (l₁ l₂ : List String) (u : String)
    (X body : String)
    (hq : jsTrim q ≠ "")
    (hsplit : candidateList apiUrl = l₁ ++ u :: l₂)
    (hfail : ∀ v ∈ l₁, ∀ t, net v t = .noResponse)
    (hnext : ∀ t, net u t =
      .response ⟨200, "application/json", body,
        some (.obj (.cons "questions" (.str X) .nil))⟩) :
    (runSubmit apiUrl s net prev (some f) q).1.result = some X := by
  set resp : HttpResponse :=
    ⟨200, "application/json", body,
      some (.obj (.cons "questions" (.str X) .nil))⟩ with hresp
  have hhr : handleResponse resp = .success X := rfl
  have hfail' : ∀ t, ∀ v ∈ l₁, attemptFails (net v t) :=
    fun t v hv => Or.inl (hfail v hv t)
  have hdel : deliveredResponse apiUrl s net = some resp := by
    by_cases hA : apiUrl = ""
    · have hproxy : proxies = l₁ ++ u :: l₂ := by
        simpa [candidateList, hA] using hsplit
      have h1 : deliveredResponse apiUrl s net =
          deliverLoop net s.retryTimeoutMs proxies := by
        simp [deliveredResponse, hA]
      rw [h1, hproxy]
      exact deliverLoop_found net _ l₁ l₂ u resp (hfail' _) (hnext _) rfl
    · have hsplit' : apiUrl :: proxies = l₁ ++ u :: l₂ := by
        simpa [candidateList, hA] using hsplit
      cases l₁ with
      | nil =>
        simp only [List.nil_append] at hsplit'
        obtain ⟨hu, hl₂⟩ := List.cons.injEq _ _ _ _ ▸ hsplit'
        have hdir : net apiUrl s.initialTimeoutMs = .response resp := by
          rw [hu]; exact hnext _
        simp [deliveredResponse, hA, hdir]
      | cons a l₁' =>
        have hsplit'' : apiUrl :: proxies = a :: (l₁' ++ u :: l₂) := by
          simpa using hsplit'
        obtain ⟨ha, hproxy⟩ := List.cons.injEq _ _ _ _ ▸ hsplit''
        have hdir : net apiUrl s.initialTimeoutMs = .noResponse := by
          rw [ha]; exact hfail a (List.mem_cons_self a l₁') _
        have h1 : deliveredResponse apiUrl s net =
            deliverLoop net s.retryTimeoutMs proxies := by
          simp [deliveredResponse, hA, hdir]
        rw [h1, hproxy]
        exact deliverLoop_found net _ l₁' l₂ u resp
          (fun v hv => hfail' _ v (List.mem_cons_of_mem a hv)) (hnext _) rfl
  have hrun : runDelivery apiUrl s net = .success X := by
    rw [runDelivery, hdel]
    exact hhr
  simp [runSubmit, hq, hrun]

/-- C1 witness: a concrete submission where the direct endpoint and the
first proxy time out and the second proxy returns the JSON result. -/
theorem c1_fallback_displays_questions_witness :
    (runSubmit "https://api.example.com/q" DEFAULT_SETTINGS
      (fun url _ =>
        if url == "https://api.example.com/q" ||
            url == "/.netlify/functions/proxy" then .noResponse
        else
          .response ⟨200, "application/json", "",
            some (.obj (.cons "questions" (.str "Q1. State Ohm\x27s law.") .nil))⟩)
      ⟨some "old result", none⟩
      (some ⟨"chapter1.pdf", "application/pdf", 52000⟩)
      "make a test paper").1.result = some "Q1. State Ohm\x27s law." := by
  refine c1_fallback_displays_questions "https://api.example.com/q"
    DEFAULT_SETTINGS _ ⟨some "old result", none⟩
    ⟨"chapter1.pdf", "application/pdf", 52000⟩ "make a test paper"
    ["https://api.example.com/q", "/.netlify/functions/proxy"]
    ["/api/proxy", "/proxy"] "/api/generate-questions"
    "Q1. State Ohm\x27s law." "" ?_ ?_ ?_ ?_
  · decide
  · rfl
  · intro v hv t
    rcases List.mem_cons.mp hv with rfl | hv
    · rfl
    · rcases List.mem_cons.mp hv with rfl | hv
      · rfl
      · cases hv
  · intro t
    rfl

/-- C2 counterexample: a candidate responding 200 with an HTML
content-type and an HTML error body is not rejected by the orchestration
of Index.tsx — it is accepted as the final response and its HTML text is
displayed, instead of causing the next candidate to be attempted. -/
theorem c2_html_body_displayed_cex :
    runDelivery "" DEFAULT_SETTINGS
      (fun _ _ =>
        .response ⟨200, "text/html", "<html><body>Not Found</body></html>", none⟩)
      = .success "<html><body>Not Found</body></html>" := rfl

/-- C2 (amended): a candidate's response is accepted as the final
successful displayed response only if its status is 2xx, and a non-2xx
response from a proxy candidate causes the next candidate to be attempted;
the body shape plays no role in acceptance (an HTML-typed 2xx body is
accepted and displayed, per the counterexample). -/
theorem c2_accepts_only_2xx :
    (∀ (apiUrl : String) (s : AppSettings) (net : Net) (txt : String),
      runDelivery apiUrl s net = .success txt →
      ∃ r, deliveredResponse apiUrl s net = some r ∧ isOk r.status = true ∧
        handleResponse r = .success txt) ∧
    (∀ (net : Net) (t : Int) (u : String) (rest : List String)
      (r : HttpResponse),
      net u t = .response r → isOk r.status = false →
      deliverLoop net t (u :: rest) = deliverLoop net t rest) := by
  constructor
  · intro apiUrl s net txt h
    cases hd : deliveredResponse apiUrl s net with
    | none => simp [runDelivery, hd] at h
    | some r =>
      simp only [runDelivery, hd] at h
      cases hok : isOk r.status with
      | false => simp [handleResponse, hok] at h
      | true => exact ⟨r, rfl, hok, h⟩
  · intro net t u rest r h1 h2
    simp [deliverLoop, h1, h2]

/-- C2 witness: a 2xx plain-text response is accepted, and a 404 proxy
response advances to the next proxy. -/
theorem c2_accepts_only_2xx_witness :
    (∃ r, deliveredResponse "" DEFAULT_SETTINGS
        (fun _ _ => .response ⟨200, "text/plain", "ok", none⟩) = some r ∧
        isOk r.status = true ∧ handleResponse r = .success "ok") ∧
    deliverLoop (fun _ _ => .response ⟨404, "text/plain", "nf", none⟩) 55000
        ("/api/proxy" :: ["/proxy"]) =
      deliverLoop (fun _ _ => .response ⟨404, "text/plain", "nf", none⟩) 55000
        ["/proxy"] :=
  ⟨c2_accepts_only_2xx.1 "" DEFAULT_SETTINGS _ "ok" rfl,
   c2_accepts_only_2xx.2 _ 55000 "/api/proxy" ["/proxy"] _ rfl rfl⟩

/-- C3 counterexample: when every candidate returns an HTML-typed 200
response — a failure according to the claim — no error message is
surfaced at all: the first HTML body is displayed as the result, the
error state stays empty and no toast is shown. -/
theorem c3_all_html_no_error_cex :
    (runSubmit "" DEFAULT_SETTINGS
        (fun _ _ =>
          .response ⟨200, "text/html; charset=utf-8", "<html>Error page</html>", none⟩)
        ⟨none, none⟩ (some ⟨"b.pdf", "application/pdf", 2048⟩)
        "generate a paper").1.result = some "<html>Error page</html>" ∧
    (runSubmit "" DEFAULT_SETTINGS
        (fun _ _ =>
          .response ⟨200, "text/html; charset=utf-8", "<html>Error page</html>", none⟩)
        ⟨none, none⟩ (some ⟨"b.pdf", "application/pdf", 2048⟩)
        "generate a paper").1.error = none ∧
    (runSubmit "" DEFAULT_SETTINGS
        (fun _ _ =>
          .response ⟨200, "text/html; charset=utf-8", "<html>Error page</html>", none⟩)
        ⟨none, none⟩ (some ⟨"b.pdf", "application/pdf", 2048⟩)
        "generate a paper").2 = [] :=
  ⟨rfl, rfl, rfl⟩

/-- C3 (amended): when the direct endpoint attempt (if configured) yields
no response and every proxy candidate fails — no response, or a non-2xx
response — exactly one aggregate error message describing likely
network/CORS causes with remediation hints is surfaced: one inline error
and one toast, not one per candidate.  (An HTML-typed 2xx response is not
a failure: it is displayed, per the counterexample.) -/
theorem c3_single_aggregate_error
    (apiUrl : String) (s : AppSettings) (net : Net) (prev : SubmitState)
    (f : FileInfo) (q : String)
    (hq : jsTrim q ≠ "")
    (hdirect : apiUrl = "" ∨ net apiUrl s.initialTimeoutMs = .noResponse)
    (hprox : ∀ v ∈ proxies, attemptFails (net v s.retryTimeoutMs)) :
    (runSubmit apiUrl s net prev (some f) q).1.error = some aggregateErrorMsg ∧
    (runSubmit apiUrl s net prev (some f) q).1.result = none ∧
    (runSubmit apiUrl s net prev (some f) q).2 =
      [("Request failed", aggregateErrorMsg)] := by
  have hloop := deliverLoop_none net s.retryTimeoutMs proxies hprox
  have hdel : deliveredResponse apiUrl s net = none := by
    rcases hdirect with hA | hdir
    · simp [deliveredResponse, hA, hloop]
    · by_cases hA : apiUrl = ""
      · simp [deliveredResponse, hA, hloop]
      · simp [deliveredResponse, hA, hdir, hloop]
  have hrun : runDelivery apiUrl s net = .failure aggregateErrorMsg := by
    rw [runDelivery, hdel]
  refine ⟨?_, ?_, ?_⟩ <;> simp [runSubmit, hq, hrun, aggregateErrorMsg]

/-- C3 witness: a concrete submission where every candidate times out
surfaces exactly the aggregate message, once. -/
theorem c3_single_aggregate_error_witness :
    (runSubmit "" DEFAULT_SETTINGS (fun _ _ => .noResponse)
        ⟨some "prior", none⟩ (some ⟨"c.pdf", "application/pdf", 10⟩)
        "questions please").1.error = some aggregateErrorMsg ∧
    (runSubmit "" DEFAULT_SETTINGS (fun _ _ => .noResponse)
        ⟨some "prior", none⟩ (some ⟨"c.pdf", "application/pdf", 10⟩)
        "questions please").1.result = none ∧
    (runSubmit "" DEFAULT_SETTINGS (fun _ _ => .noResponse)
        ⟨some "prior", none⟩ (some ⟨"c.pdf", "application/pdf", 10⟩)
        "questions please").2 = [("Request failed", aggregateErrorMsg)] :=
  c3_single_aggregate_error "" DEFAULT_SETTINGS _ _ _ _ (by decide)
    (Or.inl rfl) (fun v _ => Or.inl rfl)

theorem loopAttempts_of_deliverLoop_none (net : Net) (t : Int)
    (l : List String) (h : deliverLoop net t l = none) :
    loopAttempts net t l = l := by
  induction l with
  | nil => rfl
  | cons a l ih =>
    cases hnet : net a t with
    | noResponse =>
      rw [deliverLoop, hnet] at h
      simp [loopAttempts, hnet, ih h]
    | response r =>
      cases hok : isOk r.status with
      | true => simp [deliverLoop, hnet, hok] at h
      | false =>
        rw [deliverLoop, hnet] at h
        simp only [hok, Bool.false_eq_true, if_false] at h
        simp [loopAttempts, hnet, hok, ih h]

/-- C4: a per-attempt timeout (or network error) is never fatal by itself.
First, a candidate that yields no response is transparent to the proxy
loop: the loop result is that of the remaining candidates, after recording
the attempt.  Second, when the configured direct endpoint yields no
response, the submission behaves exactly like one that goes straight to
the proxies.  Third, the aggregate transport-error failure arises only
when no candidate produced a response, and in that case every candidate in
the list was attempted (exhausted). -/
theorem c4_timeout_advances :
    (∀ (net : Net) (t : Int) (u : String) (rest : List String),
       net u t = .noResponse →
       deliverLoop net t (u :: rest) = deliverLoop net t rest ∧
       loopAttempts net t (u :: rest) = u :: loopAttempts net t rest) ∧
    (∀ (apiUrl : String) (s : AppSettings) (net : Net), apiUrl ≠ "" →
       net apiUrl s.initialTimeoutMs = .noResponse →
       runDelivery apiUrl s net = runDelivery "" s net ∧
       deliveryAttempts apiUrl s net = apiUrl :: deliveryAttempts "" s net) ∧
    (∀ (apiUrl : String) (s : AppSettings) (net : Net),
       deliveredResponse apiUrl s net = none →
       runDelivery apiUrl s net = .failure aggregateErrorMsg ∧
       deliveryAttempts apiUrl s net = candidateList apiUrl) := by
  refine ⟨?_, ?_, ?_⟩
  · intro net t u rest h
    exact ⟨by simp [deliverLoop, h], by simp [loopAttempts, h]⟩
  · intro apiUrl s net hA hdir
    constructor
    · simp [runDelivery, deliveredResponse, hA, hdir]
    · simp [deliveryAttempts, hA, hdir]
  · intro apiUrl s net h
    by_cases hA : apiUrl = ""
    · have hl : deliverLoop net s.retryTimeoutMs proxies = none := by
        simpa [deliveredResponse, hA] using h
      refine ⟨by simp [runDelivery, h], ?_⟩
      simp [deliveryAttempts, hA, candidateList,
        loopAttempts_of_deliverLoop_none _ _ _ hl]
    · cases hdir : net apiUrl s.initialTimeoutMs with
      | response r => simp [deliveredResponse, hA, hdir] at h
      | noResponse =>
        have hl : deliverLoop net s.retryTimeoutMs proxies = none := by
          simpa [deliveredResponse, hA, hdir] using h
        refine ⟨by simp [runDelivery, h], ?_⟩
        simp [deliveryAttempts, hA, hdir, candidateList,
          loopAttempts_of_deliverLoop_none _ _ _ hl]

/-- C4 witness: with a network where every attempt times out, the loop
skips the first proxy, the direct endpoint falls back to the proxies, the
aggregate message is the failure, and all candidates are attempted. -/
theorem c4_timeout_advances_witness :
    (deliverLoop (fun _ _ => AttemptResult.noResponse) 55000
        ("/api/proxy" :: ["/proxy"]) =
      deliverLoop (fun _ _ => AttemptResult.noResponse) 55000 ["/proxy"]) ∧
    (runDelivery "https://api.example.com/q" DEFAULT_SETTINGS
        (fun _ _ => AttemptResult.noResponse) =
      runDelivery "" DEFAULT_SETTINGS (fun _ _ => AttemptResult.noResponse)) ∧
    (runDelivery "" DEFAULT_SETTINGS (fun _ _ => AttemptResult.noResponse) =
        .failure aggregateErrorMsg ∧
      deliveryAttempts "" DEFAULT_SETTINGS (fun _ _ => AttemptResult.noResponse) =
        candidateList "") :=
  ⟨(c4_timeout_advances.1 _ 55000 "/api/proxy" ["/proxy"] rfl).1,
   (c4_timeout_advances.2.1 "https://api.example.com/q" DEFAULT_SETTINGS _
     (by decide) rfl).1,
   c4_timeout_advances.2.2 "" DEFAULT_SETTINGS _ rfl⟩

/-- C5 counterexample: a file whose name's extension is not `.pdf` is
accepted by `handleFile` as long as its MIME type is `application/pdf`
(the source rejects only when both the type and the extension are wrong),
refuting the claim that every file with a non-`.pdf` extension is
rejected. -/
theorem c5_pdf_mime_bad_extension_cex :
    lowerEndsWithPdf "notes.txt" = false ∧
    handleFile ⟨"notes.txt", "application/pdf", 1000⟩ =
      (some ⟨"notes.txt", "application/pdf", 1000⟩, none) :=
  ⟨rfl, rfl⟩

/-- C5 (amended): a file is rejected — stored file cleared and an error
message set — exactly when its MIME type is not `application/pdf` AND its
lowercased name does not end in `.pdf`, or it is larger than 15MB; and a
submission without a stored file issues no network call. -/
theorem c5_validation (f : FileInfo) :
    (((handleFile f).1 = none ∧ ((handleFile f).2).isSome = true) ↔
      ((f.type ≠ "application/pdf" ∧ lowerEndsWithPdf f.name = false) ∨
        f.size > MAX_SIZE)) ∧
    (∀ (apiUrl : String) (s : AppSettings) (net : Net) (q : String),
      submitAttempts apiUrl s net none q = []) := by
  constructor
  · by_cases ht : f.type = "application/pdf" <;>
      by_cases he : lowerEndsWithPdf f.name <;>
      by_cases hs : f.size > MAX_SIZE <;>
      simp [handleFile, ht, he, hs]
  · intro apiUrl s net q
    rfl

/-- C5 witness: an oversized PDF is rejected with an error set, and a
fileless submission performs no attempts. -/
theorem c5_validation_witness :
    ((handleFile ⟨"big.pdf", "application/pdf", 20000000⟩).1 = none ∧
      ((handleFile ⟨"big.pdf", "application/pdf", 20000000⟩).2).isSome = true) ∧
    submitAttempts "" DEFAULT_SETTINGS (fun _ _ => AttemptResult.noResponse)
      none "q" = [] :=
  ⟨(c5_validation ⟨"big.pdf", "application/pdf", 20000000⟩).1.mpr
      (Or.inr (by decide)),
   (c5_validation ⟨"big.pdf", "application/pdf", 20000000⟩).2 ""
      DEFAULT_SETTINGS _ "q"⟩

/-- C6 counterexample: with `autoRetry` enabled (the default) and every
candidate failing, the attempts are exactly the candidate list — five
POSTs and no additional retry — refuting the claim that a retry occurs if
and only if `autoRetry` is enabled. -/
theorem c6_no_autoretry_cex :
    DEFAULT_SETTINGS.autoRetry = true ∧
    deliveryAttempts "https://api.example.com/generate" DEFAULT_SETTINGS
        (fun _ _ => AttemptResult.noResponse) =
      candidateList "https://api.example.com/generate" ∧
    (candidateList "https://api.example.com/generate").length = 5 :=
  ⟨rfl, rfl, rfl⟩

/-- C6 (amended): the orchestration never attempts a URL beyond the
ordered candidate list — the attempts are always a leading run of it —
and performs no additional retry: its behaviour (state, toasts and
attempts) is entirely independent of the `autoRetry` and `defaultQuery`
settings, which it never reads. -/
theorem c6_attempts_within_candidates :
    (∀ (apiUrl : String) (s : AppSettings) (net : Net),
      ∃ rest, deliveryAttempts apiUrl s net ++ rest = candidateList apiUrl) ∧
    (∀ (apiUrl : String) (i r : Int) (b b' : Bool) (d d' : String)
        (net : Net) (prev : SubmitState) (file : Option FileInfo) (q : String),
      runSubmit apiUrl ⟨i, r, b, d⟩ net prev file q =
        runSubmit apiUrl ⟨i, r, b', d'⟩ net prev file q ∧
      deliveryAttempts apiUrl ⟨i, r, b, d⟩ net =
        deliveryAttempts apiUrl ⟨i, r, b', d'⟩ net) := by
  constructor
  · intro apiUrl s net
    by_cases hA : apiUrl = ""
    · obtain ⟨rest, hrest⟩ := loopAttempts_isLead net s.retryTimeoutMs proxies
      exact ⟨rest, by simp [deliveryAttempts, hA, candidateList, hrest]⟩
    · cases hdir : net apiUrl s.initialTimeoutMs with
      | noResponse =>
        obtain ⟨rest, hrest⟩ := loopAttempts_isLead net s.retryTimeoutMs proxies
        exact ⟨rest, by simp [deliveryAttempts, hA, hdir, candidateList, hrest]⟩
      | response r =>
        exact ⟨proxies, by simp [deliveryAttempts, hA, hdir, candidateList]⟩
  · intro apiUrl i r b b' d d' net prev file q
    exact ⟨rfl, rfl⟩

/-- C6 witness: concrete attempts form a leading run of the candidates,
and flipping `autoRetry` (and `defaultQuery`) changes nothing. -/
theorem c6_attempts_within_candidates_witness :
    (∃ rest, deliveryAttempts "" DEFAULT_SETTINGS
        (fun _ _ => AttemptResult.noResponse) ++ rest = candidateList "") ∧
    runSubmit "" ⟨25000, 55000, true, ""⟩ (fun _ _ => AttemptResult.noResponse)
        ⟨none, none⟩ none "q" =
      runSubmit "" ⟨25000, 55000, false, "x"⟩
        (fun _ _ => AttemptResult.noResponse) ⟨none, none⟩ none "q" :=
  ⟨c6_attempts_within_candidates.1 "" DEFAULT_SETTINGS _,
   (c6_attempts_within_candidates.2 "" 25000 55000 true false "" "x" _
     ⟨none, none⟩ none "q").1⟩

/-- C7 counterexample: the startup merge applies no validation, so a
persisted record with `initialTimeoutMs: 1` yields an in-effect settings
record whose `initialTimeoutMs` is 1, below the claimed lower bound of
5000. -/
theorem c7_unvalidated_timeout_cex :
    (loadSettings (some ⟨some 1, none, none, none⟩)).initialTimeoutMs = 1 ∧
    ¬ (5000 ≤ (loadSettings (some ⟨some 1, none, none, none⟩)).initialTimeoutMs) :=
  ⟨rfl, by decide⟩

/-- C7 (amended): after startup loading each timeout field equals the
persisted value when one is present and the hardcoded default otherwise;
the defaults (25000 and 55000) satisfy the ≥ 5000 bound, and the bound
holds for a loaded record exactly when any persisted override itself
satisfies it — no validation enforces it. -/
theorem c7_settings_after_load :
    (loadSettings none = DEFAULT_SETTINGS ∧
      5000 ≤ DEFAULT_SETTINGS.initialTimeoutMs ∧
      5000 ≤ DEFAULT_SETTINGS.retryTimeoutMs) ∧
    (∀ p : PartialAppSettings,
      (loadSettings (some p)).initialTimeoutMs =
        p.initialTimeoutMs.getD DEFAULT_SETTINGS.initialTimeoutMs ∧
      (loadSettings (some p)).retryTimeoutMs =
        p.retryTimeoutMs.getD DEFAULT_SETTINGS.retryTimeoutMs) ∧
    (∀ (p : PartialAppSettings) (v : Int),
      p.initialTimeoutMs = some v → 5000 ≤ v →
      5000 ≤ (loadSettings (some p)).initialTimeoutMs) ∧
    (∀ (p : PartialAppSettings) (v : Int),
      p.retryTimeoutMs = some v → 5000 ≤ v →
      5000 ≤ (loadSettings (some p)).retryTimeoutMs) := by
  refine ⟨⟨rfl, by decide, by decide⟩, fun p => ⟨rfl, rfl⟩, ?_, ?_⟩
  · intro p v hp hv
    simpa [loadSettings, mergeSettings, hp] using hv
  · intro p v hp hv
    simpa [loadSettings, mergeSettings, hp] using hv

/-- C7 witness: a record persisting 30000 keeps it, and persisted values
at or above the bound keep the bound. -/
theorem c7_settings_after_load_witness :
    (loadSettings (some ⟨some 30000, none, none, none⟩)).initialTimeoutMs =
      (some (30000 : Int)).getD DEFAULT_SETTINGS.initialTimeoutMs ∧
    5000 ≤ (loadSettings (some ⟨some 30000, none, none, none⟩)).initialTimeoutMs ∧
    5000 ≤ (loadSettings (some ⟨none, some 60000, none, none⟩)).retryTimeoutMs :=
  ⟨(c7_settings_after_load.2.1 ⟨some 30000, none, none, none⟩).1,
   c7_settings_after_load.2.2.1 ⟨some 30000, none, none, none⟩ 30000 rfl
     (by decide),
   c7_settings_after_load.2.2.2 ⟨none, some 60000, none, none⟩ 60000 rfl
     (by decide)⟩

/-- C8: settings round-trip — serializing a partial settings record to
JSON, parsing it back and merging it over the defaults yields a record
whose explicitly saved fields equal the saved values and whose unspecified
fields equal the hardcoded defaults. -/
theorem c8_settings_roundtrip (p : PartialAppSettings) :
    loadSettings (some (decodeSettings (encodeSettings p))) =
      { initialTimeoutMs := p.initialTimeoutMs.getD DEFAULT_SETTINGS.initialTimeoutMs
        retryTimeoutMs := p.retryTimeoutMs.getD DEFAULT_SETTINGS.retryTimeoutMs
        autoRetry := p.autoRetry.getD DEFAULT_SETTINGS.autoRetry
        defaultQuery := p.defaultQuery.getD DEFAULT_SETTINGS.defaultQuery } := by
  obtain ⟨i, r, a, d⟩ := p
  cases i <;> cases r <;> cases a <;> cases d <;> rfl

/-- C9: when an accepted JSON response body parses as an object, the
displayed result text is chosen by the fixed key precedence `questions`,
then `result`, then `message` (a key counts as present only when its value
is non-null, as `??` skips null), the chosen value passing through
`String(...)`; when no key matches, the pretty-printed JSON of the whole
object is displayed; a JSON string body is displayed as-is. -/
theorem c9_key_precedence (ct body : String)
    (hct : strIncludes ct "application/json" = true) :
    (∀ s, handleResponse ⟨200, ct, body, some (.str s)⟩ = .success s) ∧
    (∀ (fields : JsonFields) (v : JsonVal),
      jsCoalesce (jsonGet (.obj fields) "questions") = some v →
      handleResponse ⟨200, ct, body, some (.obj fields)⟩ =
        .success (jsToString v)) ∧
    (∀ (fields : JsonFields) (v : JsonVal),
      jsCoalesce (jsonGet (.obj fields) "questions") = none →
      jsCoalesce (jsonGet (.obj fields) "result") = some v →
      handleResponse ⟨200, ct, body, some (.obj fields)⟩ =
        .success (jsToString v)) ∧
    (∀ (fields : JsonFields) (v : JsonVal),
      jsCoalesce (jsonGet (.obj fields) "questions") = none →
      jsCoalesce (jsonGet (.obj fields) "result") = none →
      jsCoalesce (jsonGet (.obj fields) "message") = some v →
      handleResponse ⟨200, ct, body, some (.obj fields)⟩ =
        .success (jsToString v)) ∧
    (∀ fields : JsonFields,
      jsCoalesce (jsonGet (.obj fields) "questions") = none →
      jsCoalesce (jsonGet (.obj fields) "result") = none →
      jsCoalesce (jsonGet (.obj fields) "message") = none →
      handleResponse ⟨200, ct, body, some (.obj fields)⟩ =
        .success (stringifyJson "" (.obj fields))) := by
  refine ⟨?_, ?_, ?_, ?_, ?_⟩ <;>
    intros <;>
    simp [handleResponse, extractText, isOk, hct, *]

/-- C9 witness: concrete responses exercising the string case and the
precedence of `questions` over `result`. -/
theorem c9_key_precedence_witness :
    handleResponse ⟨200, "application/json", "", some (.str "plain answer")⟩ =
      .success "plain answer" ∧
    handleResponse ⟨200, "application/json", "",
        some (.obj (.cons "result" (.str "b")
          (.cons "questions" (.str "a") .nil)))⟩ =
      .success (jsToString (.str "a")) :=
  ⟨(c9_key_precedence "application/json" "" rfl).1 "plain answer",
   (c9_key_precedence "application/json" "" rfl).2.1
     (.cons "result" (.str "b") (.cons "questions" (.str "a") .nil))
     (.str "a") rfl⟩

/-- C10: every invocation of the submit operation first clears the
previous result and error state, so a submission rejected by validation
(missing file, or query empty after trimming) still erases any previously
displayed result, sets the matching validation error, and makes no
network call. -/
theorem c10_clears_previous_state
    (apiUrl : String) (s : AppSettings) (net : Net) (prev : SubmitState)
    (f : FileInfo) (q : String) (hq : jsTrim q = "") :
    ((runSubmit apiUrl s net prev none q).1.result = none ∧
      (runSubmit apiUrl s net prev none q).1.error =
        some "Attach a PDF file first." ∧
      submitAttempts apiUrl s net none q = []) ∧
    ((runSubmit apiUrl s net prev (some f) q).1.result = none ∧
      (runSubmit apiUrl s net prev (some f) q).1.error = some "Enter a query." ∧
      submitAttempts apiUrl s net (some f) q = []) := by
  refine ⟨⟨rfl, rfl, rfl⟩, ?_, ?_, ?_⟩ <;> simp [runSubmit, submitAttempts, hq]

/-- C10 witness: a whitespace-only query with a previously displayed
result: both rejection forms erase it without attempts. -/
theorem c10_clears_previous_state_witness :
    ((runSubmit "" DEFAULT_SETTINGS (fun _ _ => AttemptResult.noResponse)
        ⟨some "old paper", some "old error"⟩ none "   ").1.result = none ∧
      (runSubmit "" DEFAULT_SETTINGS (fun _ _ => AttemptResult.noResponse)
        ⟨some "old paper", some "old error"⟩ none "   ").1.error =
          some "Attach a PDF file first." ∧
      submitAttempts "" DEFAULT_SETTINGS (fun _ _ => AttemptResult.noResponse)
        none "   " = []) ∧
    ((runSubmit "" DEFAULT_SETTINGS (fun _ _ => AttemptResult.noResponse)
        ⟨some "old paper", some "old error"⟩
        (some ⟨"a.pdf", "application/pdf", 5⟩) "   ").1.result = none ∧
      (runSubmit "" DEFAULT_SETTINGS (fun _ _ => AttemptResult.noResponse)
        ⟨some "old paper", some "old error"⟩
        (some ⟨"a.pdf", "application/pdf", 5⟩) "   ").1.error =
          some "Enter a query." ∧
      submitAttempts "" DEFAULT_SETTINGS (fun _ _ => AttemptResult.noResponse)
        (some ⟨"a.pdf", "application/pdf", 5⟩) "   " = []) :=
  c10_clears_previous_state "" DEFAULT_SETTINGS _
    ⟨some "old paper", some "old error"⟩ ⟨"a.pdf", "application/pdf", 5⟩
    "   " (by decide)
